import Mathlib

/-!
Verification of the multi-site checker service (src/app.py).

The development embeds the pure core of the program:

* `parse_cc`            — the wire-form record parser (app.py lines 38-43);
* `fetch_site`          — the per-endpoint task boundary (lines 45-80), with the
                          network call abstracted as a `NetOutcome`;
* `decide_overall`      — the heuristic result aggregator (lines 82-124);
* `planSpecs`/`gatewayRun` — the request planner and response assembly of the
                          `/gateway` handler (lines 126-172);
* configuration constants (lines 13-36).

Structured response bodies are modelled by a JSON value type `Json`; the
Python primitives the code applies to them (`str`, `.upper()`, substring
test, `float` coercion, dict truthiness and `get`) are embedded explicitly.
Rational numbers stand in for Python floats; all arithmetic used by the
embedding is built from `Rat.divInt`/`mkRat` so that every definition
evaluates inside the kernel, and is related to the ambient field operations
by bridge lemmas.
-/

namespace Killer

/-- JSON-like values as produced by `json.loads`. -/
inductive Json where
  | null
  | bool (b : Bool)
  | num (q : ℚ)
  | str (s : String)
  | arr (elems : List Json)
  | obj (fields : List (String × Json))

/-- Decimal text of an integer; used to render JSON numbers. -/
def numStr (q : ℚ) : String :=
  if q.den = 1 then toString q.num else toString q.num ++ "/" ++ toString q.den

/-- Comma-space separator used by Python container `repr`. -/
def commaSep : List String → String
  | [] => ""
  | [s] => s
  | s :: rest => s ++ ", " ++ commaSep rest

mutual

/-- Python `repr` of a JSON value (the rendering `str` applies inside
containers).  Number rendering differs from CPython only in digits-and-symbols
spelling, which the aggregator's alphabetic keyword scan cannot observe. -/
def pyRepr : Json → String
  | Json.null => "None"
  | Json.bool true => "True"
  | Json.bool false => "False"
  | Json.num q => numStr q
  | Json.str s => "'" ++ s ++ "'"
  | Json.arr xs => "[" ++ pyReprList xs ++ "]"
  | Json.obj fs => "\x7b" ++ pyReprObj fs ++ "\x7d"

/-- `repr` of the elements of a JSON array, comma separated. -/
def pyReprList : List Json → String
  | [] => ""
  | [j] => pyRepr j
  | j :: js => pyRepr j ++ ", " ++ pyReprList js

/-- `repr` of the fields of a JSON object, comma separated. -/
def pyReprObj : List (String × Json) → String
  | [] => ""
  | [(k, v)] => "'" ++ k ++ "': " ++ pyRepr v
  | (k, v) :: fs => "'" ++ k ++ "': " ++ pyRepr v ++ ", " ++ pyReprObj fs

end

/-- Python `str` of a JSON value: strings render bare, everything else as
`repr`. -/
def pyStr : Json → String
  | Json.null => "None"
  | Json.bool true => "True"
  | Json.bool false => "False"
  | Json.num q => numStr q
  | Json.str s => s
  | Json.arr xs => "[" ++ pyReprList xs ++ "]"
  | Json.obj fs => "\x7b" ++ pyReprObj fs ++ "\x7d"

/-- Python `str.upper()` (ASCII case map, which covers every keyword the
aggregator scans for). -/
def pyUpper (s : String) : String := String.mk (s.toList.map Char.toUpper)

/-- `needle.isPre hay`: the first list is an initial segment of the second. -/
def charsPre : List Char → List Char → Bool
  | [], _ => true
  | _ :: _, [] => false
  | c :: cs, d :: ds => c == d && charsPre cs ds

/-- Substring test on character lists. -/
def charsSub (needle : List Char) : List Char → Bool
  | [] => needle.isEmpty
  | d :: ds => charsPre needle (d :: ds) || charsSub needle ds

/-- Python `needle in hay` on strings. -/
def strSub (hay needle : String) : Bool := charsSub needle.toList hay.toList

/-- Dict lookup, Python `d.get(k)`. -/
def jGet (fs : List (String × Json)) (k : String) : Option Json :=
  List.lookup k fs

/-! ### Executable rational arithmetic

Batteries marks `Rat.add`/`Rat.mul`/`Rat.inv` irreducible, so the embedding
computes with `Rat.divInt`/`mkRat` instead and carries bridge lemmas to the
field operations. -/

/-- Executable addition on `ℚ`. -/
def qAdd (a b : ℚ) : ℚ :=
  Rat.divInt (a.num * (b.den : Int) + b.num * (a.den : Int)) ((a.den : Int) * (b.den : Int))

/-- Executable division on `ℚ`. -/
def qDiv (a b : ℚ) : ℚ :=
  Rat.divInt (a.num * (b.den : Int)) ((a.den : Int) * b.num)

/-- Executable embedding of a natural number into `ℚ`. -/
def qOfNat (n : Nat) : ℚ := mkRat (n : Int) 1

lemma qAdd_eq (a b : ℚ) : qAdd a b = a + b := by
  unfold qAdd
  rw [Rat.divInt_eq_div]
  have ha : ((a.den : ℚ)) ≠ 0 := Nat.cast_ne_zero.mpr a.den_nz
  have hb : ((b.den : ℚ)) ≠ 0 := Nat.cast_ne_zero.mpr b.den_nz
  conv_rhs => rw [← Rat.num_div_den a, ← Rat.num_div_den b]
  push_cast
  field_simp

lemma qDiv_eq (a b : ℚ) : qDiv a b = a / b := by
  unfold qDiv
  rcases eq_or_ne b 0 with rb | rb
  · subst rb
    simp [Rat.divInt_eq_div]
  · have hbn : ((b.num : ℚ)) ≠ 0 := by
      exact_mod_cast Rat.num_ne_zero.mpr rb
    have ha : ((a.den : ℚ)) ≠ 0 := Nat.cast_ne_zero.mpr a.den_nz
    have hb : ((b.den : ℚ)) ≠ 0 := Nat.cast_ne_zero.mpr b.den_nz
    rw [Rat.divInt_eq_div]
    conv_rhs => rw [← Rat.num_div_den a, ← Rat.num_div_den b]
    push_cast
    field_simp

lemma qOfNat_eq (n : Nat) : qOfNat n = (n : ℚ) := by
  unfold qOfNat
  rw [Rat.mkRat_eq_div]
  simp

/-- Round an integer fraction `n + r/d` (with `n` the floor and `r` the
remainder) half-to-even. -/
def rheBase (n r d : Int) : Int :=
  if 2 * r < d then n
  else if d < 2 * r then n + 1
  else if n % 2 = 0 then n else n + 1

/-- Round-half-to-even on `ℚ`, the rounding mode of Python's `round`. -/
def roundHalfEven (q : ℚ) : ℤ :=
  rheBase (q.num / (q.den : Int)) (q.num - q.num / (q.den : Int) * (q.den : Int)) (q.den : Int)

/-- Python `round(x, 2)`. -/
def round2 (q : ℚ) : ℚ :=
  Rat.divInt (roundHalfEven (Rat.divInt (q.num * 100) (q.den : Int))) 100

lemma roundHalfEven_close (q : ℚ) : |(roundHalfEven q : ℚ) - q| ≤ 1 / 2 := by
  unfold roundHalfEven rheBase
  set n := q.num / (q.den : Int) with hn
  have hfl : n = ⌊q⌋ := by rw [hn, Rat.floor_def]
  set r := q.num - n * (q.den : Int) with hr
  have hd0 : (0 : ℚ) < (q.den : ℚ) := by exact_mod_cast q.den_pos
  have hd : ((q.den : ℚ)) ≠ 0 := ne_of_gt hd0
  have hnum : ((q.num : ℚ)) = q * (q.den : ℚ) := by
    have h := Rat.num_div_den q
    rw [div_eq_iff hd] at h
    exact h
  have key : (r : ℚ) = (q - (n : ℚ)) * (q.den : ℚ) := by
    rw [hr]
    push_cast
    rw [hnum]
    ring
  have hfl_le : (n : ℚ) ≤ q := by rw [hfl]; exact_mod_cast Int.floor_le q
  have hfl_lt : q < (n : ℚ) + 1 := by rw [hfl]; exact_mod_cast Int.lt_floor_add_one q
  split_ifs with h1 h2 h3
  · have h1q : 2 * ((q - (n : ℚ)) * (q.den : ℚ)) < (q.den : ℚ) := by
      rw [← key]; exact_mod_cast h1
    have : q - (n : ℚ) < 1 / 2 := by nlinarith
    rw [abs_sub_comm, abs_of_nonneg (by linarith)]
    linarith
  · have h2q : (q.den : ℚ) < 2 * ((q - (n : ℚ)) * (q.den : ℚ)) := by
      rw [← key]; exact_mod_cast h2
    have : 1 / 2 < q - (n : ℚ) := by nlinarith
    push_cast
    rw [abs_of_nonneg (by linarith)]
    linarith
  · have heq : (2 : Int) * r = (q.den : Int) := le_antisymm (not_lt.mp h2) (not_lt.mp h1)
    have heqq : 2 * ((q - (n : ℚ)) * (q.den : ℚ)) = (q.den : ℚ) := by
      rw [← key]; exact_mod_cast heq
    have hhalf : q - (n : ℚ) = 1 / 2 := by
      have h2' : (2 * (q - (n : ℚ))) * (q.den : ℚ) = 1 * (q.den : ℚ) := by
        linear_combination heqq
      have := mul_right_cancel₀ hd h2'
      linarith
    rw [abs_sub_comm, abs_of_nonneg (by linarith)]
    linarith
  · have heq : (2 : Int) * r = (q.den : Int) := le_antisymm (not_lt.mp h2) (not_lt.mp h1)
    have heqq : 2 * ((q - (n : ℚ)) * (q.den : ℚ)) = (q.den : ℚ) := by
      rw [← key]; exact_mod_cast heq
    have hhalf : q - (n : ℚ) = 1 / 2 := by
      have h2' : (2 * (q - (n : ℚ))) * (q.den : ℚ) = 1 * (q.den : ℚ) := by
        linear_combination heqq
      have := mul_right_cancel₀ hd h2'
      linarith
    push_cast
    rw [abs_of_nonneg (by linarith)]
    linarith

lemma round2_eq (q : ℚ) : round2 q = (roundHalfEven (q * 100) : ℚ) / 100 := by
  unfold round2
  have hd : ((q.den : ℚ)) ≠ 0 := Nat.cast_ne_zero.mpr q.den_nz
  have hmul : Rat.divInt (q.num * 100) (q.den : Int) = q * 100 := by
    rw [Rat.divInt_eq_div]
    conv_rhs => rw [← Rat.num_div_den q]
    push_cast
    field_simp
  rw [hmul, Rat.divInt_eq_div]
  norm_num

lemma round2_close (q : ℚ) : |round2 q - q| ≤ 1 / 200 := by
  rw [round2_eq]
  have h2 := roundHalfEven_close (q * 100)
  have h3 : (roundHalfEven (q * 100) : ℚ) / 100 - q
      = ((roundHalfEven (q * 100) : ℚ) - q * 100) / 100 := by ring
  rw [h3, abs_div, show |(100 : ℚ)| = 100 by norm_num]
  linarith

/-! ### Python `float()` coercion -/

/-- Value of a digit string, most significant first. -/
def digitsToNat (l : List Char) : Nat :=
  l.foldl (fun a c => a * 10 + (c.toNat - 48)) 0

/-- Split a character list at the first dot, if any. -/
def splitDot : List Char → List Char × Option (List Char)
  | [] => ([], none)
  | c :: cs =>
    if c = '.' then ([], some cs)
    else
      let p := splitDot cs
      (c :: p.1, p.2)

/-- Python `float(s)` on a decimal string literal: optional sign, an integer
part and an optional fractional part, at least one digit overall; anything
else raises, modelled as `none`.  (Exponent and infinity spellings, which the
program's data never exercises, are also mapped to `none`.) -/
def pyFloatOfString (s : String) : Option ℚ :=
  let sb : Int × List Char :=
    match s.toList with
    | '-' :: rest => (-1, rest)
    | '+' :: rest => (1, rest)
    | l => (1, l)
  match splitDot sb.2 with
  | (ip, none) =>
    if !ip.isEmpty && ip.all Char.isDigit then
      some (Rat.divInt (sb.1 * (digitsToNat ip : Int)) 1)
    else none
  | (ip, some fp) =>
    if (!ip.isEmpty || !fp.isEmpty) && ip.all Char.isDigit && fp.all Char.isDigit then
      some (Rat.divInt (sb.1 * ((digitsToNat ip : Int) * (10 : Int) ^ fp.length + (digitsToNat fp : Int)))
        ((10 : Int) ^ fp.length))
    else none

/-- Python `float(x)` on a JSON value: numbers pass through, booleans coerce
to 0/1, strings are parsed as decimals; `None`, lists and dicts raise
(`none`). -/
def pyFloat : Json → Option ℚ
  | Json.num q => some q
  | Json.bool b => some (if b then 1 else 0)
  | Json.str s => pyFloatOfString s
  | _ => none

/-! ### The wire-form record parser (app.py lines 38-43) -/

/-- Split at every `'|'`, Python `s.split("|")`. -/
def splitBar : List Char → List (List Char)
  | [] => [[]]
  | c :: cs =>
    if c = '|' then [] :: splitBar cs
    else
      match splitBar cs with
      | [] => [[c]]
      | h :: t => (c :: h) :: t

/-- Python `cc_raw.split("|")` on strings. -/
def pySplitBar (s : String) : List String :=
  (splitBar s.toList).map String.mk

/-- `parse_cc` (lines 38-43): require at least four `|`-separated parts and
return the first four; otherwise raise `ValueError`, modelled as
`Except.error` with the message the code raises. -/
def parse_cc (cc_raw : String) : Except String (String × String × String × String) :=
  let parts := pySplitBar cc_raw
  if parts.length < 4 then
    Except.error "Invalid cc format. Expecting PAN|MM|YY|CVV"
  else
    Except.ok (parts.getD 0 "", parts.getD 1 "", parts.getD 2 "", parts.getD 3 "")

/-! ### Per-endpoint results and `fetch_site` (app.py lines 45-80) -/

/-- The dictionary `fetch_site` returns for one endpoint. -/
structure EndpointResult where
  site : String
  url : String
  cc : String
  http_status : Option Nat
  duration_ms : ℚ
  raw_response : Option String
  parsed_response : Option Json
  error : Option String

/-- Terminal state of one network call: a completed response (status and
body) or a transport-level exception with its message. -/
inductive NetOutcome where
  | ok (status : Nat) (body : String)
  | exn (msg : String)

/-- `fetch_site` (lines 45-80), with the `aiohttp` GET abstracted as a
`NetOutcome` and `json.loads` as a `loads` capability returning `none` on
structural-parse failure.  On a completed response the result carries the
status, raw body, parse attempt and no error; on an exception it carries the
stringified exception and neither status nor body. -/
def fetch_site (loads : String → Option Json) (site url cc_for_site : String)
    (duration_ms : ℚ) : NetOutcome → EndpointResult
  | NetOutcome.ok status body =>
    { site := site, url := url, cc := cc_for_site, http_status := some status,
      duration_ms := duration_ms, raw_response := some body,
      parsed_response := loads body, error := none }
  | NetOutcome.exn msg =>
    { site := site, url := url, cc := cc_for_site, http_status := none,
      duration_ms := duration_ms, raw_response := none,
      parsed_response := none, error := some msg }

/-! ### The aggregator `decide_overall` (app.py lines 82-124) -/

/-- The guard `pr and isinstance(pr, dict)` (line 88): the parsed response is
a dict and truthy, i.e. a non-empty JSON object. -/
def structuredFields (pr : Option Json) : Option (List (String × Json)) :=
  match pr with
  | some (Json.obj fs) => if fs.isEmpty then none else some fs
  | _ => none

/-- `str(pr.get("Response", "")).upper()` (line 89). -/
def respText (fs : List (String × Json)) : String :=
  pyUpper (pyStr ((jGet fs "Response").getD (Json.str "")))

/-- `status_field in ("true", "1", True, "True", "TRUE", "ok", "OK")`
(line 91), with Python's `==` semantics: the number 1 equals `True`, and a
missing field (`None`) matches nothing. -/
def statusTruthy : Option Json → Bool
  | some (Json.str s) =>
    s == "true" || s == "1" || s == "True" || s == "TRUE" || s == "ok" || s == "OK"
  | some (Json.bool b) => b
  | some (Json.num q) => q == 1
  | _ => false

/-- Lines 91-94: the per-result any-live signal of a structured body. -/
def fieldsLive (fs : List (String × Json)) : Bool :=
  statusTruthy (jGet fs "Status") ||
    (strSub (respText fs) "LIVE" || strSub (respText fs) "APPROVED" ||
      strSub (respText fs) "SUCCESS")

/-- Lines 95-96: the per-result any-error signal of a structured body. -/
def fieldsError (fs : List (String × Json)) : Bool :=
  strSub (respText fs) "ERROR" ||
    (match jGet fs "Response" with
     | some (Json.str s) => s == "GENERIC_ERROR"
     | _ => false)

/-- Lines 97-101: the price contribution of a structured body.  `"Price" in
pr and pr["Price"] is not None` guards the access, and a `float` coercion
failure is swallowed (`none`). -/
def fieldsPrice (fs : List (String × Json)) : Option ℚ :=
  match jGet fs "Price" with
  | some Json.null => none
  | some v => pyFloat v
  | none => none

/-- Lines 102-104: a result without a structured body contributes to
`any_error` when its error field is truthy (a non-empty string) or its HTTP
status is truthy and at least 400. -/
def unstructuredError (r : EndpointResult) : Bool :=
  (match r.error with
   | some e => !(e == "")
   | none => false) ||
  (match r.http_status with
   | some n => !(n == 0) && decide (400 ≤ n)
   | none => false)

/-- State of the aggregation loop: `any_live`, `any_error`, `prices`. -/
structure AggState where
  any_live : Bool
  any_error : Bool
  prices : List ℚ

/-- One iteration of the `for r in results` loop (lines 86-104). -/
def aggStep (st : AggState) (r : EndpointResult) : AggState :=
  match structuredFields r.parsed_response with
  | some fs =>
    { any_live := st.any_live || fieldsLive fs,
      any_error := st.any_error || fieldsError fs,
      prices := st.prices ++ (fieldsPrice fs).toList }
  | none =>
    { st with any_error := st.any_error || unstructuredError r }

/-- The overall verdict `decide_overall` returns. -/
structure Verdict where
  Response : String
  Status : String
  Price : Option ℚ

/-- Python `sum` over a price list. -/
def pySum (l : List ℚ) : ℚ := l.foldl qAdd 0

/-- `decide_overall` (lines 82-124): fold the live/error signals and the
price list over all results, classify by `any_live` then `any_error`, and
average the collected prices rounded to two decimals (absent when no result
contributed one). -/
def decide_overall (results : List EndpointResult) : Verdict :=
  let st := results.foldl aggStep { any_live := false, any_error := false, prices := [] }
  { Response := if st.any_live then "LIVE" else if st.any_error then "GENERIC_ERROR" else "UNKNOWN",
    Status := if st.any_live then "true" else if st.any_error then "false" else "unknown",
    Price := if st.prices.isEmpty then none
      else some (round2 (qDiv (pySum st.prices) (qOfNat st.prices.length))) }

/-! ### Configuration and the `/gateway` handler (app.py lines 13-36, 126-172) -/

/-- The configured endpoint list (lines 17-28). -/
def SITES : List String :=
  ["https://deltacloudz.com",
   "https://therapyessentials.coraphysicaltherapy.com",
   "https://bacteriostaticwater.com",
   "https://livelovespa.com",
   "https://divinebovinejerky.com",
   "https://casabelladecor.net",
   "https://lptmedical.com",
   "https://restart.brooksrunning.com",
   "https://safeandsoundhq.com",
   "https://urbanspaceinteriors.com"]

/-- Line 30. -/
def REMOTE_API_TEMPLATE : String :=
  "https://rockyog.onrender.com/index.php?site=\x7bsite\x7d&cc=\x7bcc\x7d"

/-- Line 35: the configured concurrency ceiling. -/
def MAX_CONCURRENT : Int := 3

/-- Line 145 as a function of the configured ceiling: the value handed to
`asyncio.Semaphore` is the constant itself — no clamping is applied. -/
def semaphorePermits (maxConcurrent : Int) : Int := maxConcurrent

/-- The clamping C8 claims, written from the spec's words: the ceiling is
raised to at least 1 and capped at the number of specs. -/
def specClamp (maxConcurrent : Int) (nspecs : Nat) : Int :=
  if maxConcurrent < 1 then 1
  else if (nspecs : Int) < maxConcurrent then (nspecs : Int)
  else maxConcurrent

/-- Join behaviour of a semaphore-bounded fan-out batch: every task acquires
one permit, runs, and releases it, so the `gather` join is reached exactly
when the batch is empty or at least one permit exists; with zero (or fewer)
permits and a non-empty batch every task blocks in `acquire` forever. -/
def batchJoins (permits : Int) (pending : Nat) : Bool :=
  pending == 0 || decide (1 ≤ permits)

/-- `"|".join([pan, mm, yy, "000"])` (line 153): the record sent to endpoints
from position 5 on, with the fourth field replaced by the sentinel. -/
def maskedCC (pan mm yy : String) : String :=
  pan ++ "|" ++ mm ++ "|" ++ yy ++ "|" ++ "000"

/-- One planned request: endpoint identifier, resolved URL, record used. -/
structure RequestSpec where
  site : String
  url : String
  cc : String

/-- Line 154: substitute the quoted site and record into the URL template. -/
def buildURL (quote : String → String) (site cc_for_site : String) : String :=
  (REMOTE_API_TEMPLATE.replace "\x7bsite\x7d" (quote site)).replace "\x7bcc\x7d" (quote cc_for_site)

/-- Lines 152-155: one request spec per configured endpoint, in configuration
order; endpoints at positions `i ≥ 5` receive the masked record, earlier ones
the raw record.  `quote` abstracts `urllib.parse.quote_plus`. -/
def planSpecs (quote : String → String) (pan mm yy cvv cc_raw : String) : List RequestSpec :=
  (SITES.take 10).enum.map (fun p =>
    let cc_for_site := if 5 ≤ p.1 then maskedCC pan mm yy else cc_raw
    { site := p.2, url := buildURL quote p.2 cc_for_site, cc := cc_for_site })

/-- The planning stage of the handler: parse the record (lines 139-142), then
plan the fan-out (lines 152-155). -/
def gatewayPlan (quote : String → String) (cc_raw : String) : Except String (List RequestSpec) :=
  match parse_cc cc_raw with
  | Except.error e => Except.error e
  | Except.ok (pan, mm, yy, cvv) => Except.ok (planSpecs quote pan mm yy cvv cc_raw)

/-- Executable multiplication by 1000, the seconds-to-milliseconds scaling of
line 159. -/
def qMul1000 (q : ℚ) : ℚ := Rat.divInt (q.num * 1000) (q.den : Int)

lemma qMul1000_eq (q : ℚ) : qMul1000 q = q * 1000 := by
  unfold qMul1000
  have hd : ((q.den : ℚ)) ≠ 0 := Nat.cast_ne_zero.mpr q.den_nz
  rw [Rat.divInt_eq_div]
  conv_rhs => rw [← Rat.num_div_den q]
  push_cast
  field_simp

/-- The outbound payload `final` (lines 162-170). -/
structure OutPayload where
  Gateway : String
  Price : Option ℚ
  Response : String
  Status : String
  cc : String
  total_time_ms : ℚ
  per_site : List EndpointResult

/-- Lines 159-170: aggregate the results and assemble the outbound payload.
`elapsed_s` is the wall-clock duration of the fan-out in seconds;
`total_time_ms = round(elapsed * 1000, 2)`. -/
def assemble (cc_raw : String) (results : List EndpointResult) (elapsed_s : ℚ) : OutPayload :=
  let overall := decide_overall results
  { Gateway := "Authorize.net",
    Price := overall.Price,
    Response := overall.Response,
    Status := overall.Status,
    cc := cc_raw,
    total_time_ms := round2 (qMul1000 elapsed_s),
    per_site := results }

/-- The full `/gateway` pipeline after authorization (lines 139-172): parse,
plan, run each spec against its network outcome, aggregate and assemble.
Each element of `outcomes` pairs a call's terminal state with its measured
duration. -/
def gatewayRun (quote : String → String) (loads : String → Option Json) (cc_raw : String)
    (outcomes : List (NetOutcome × ℚ)) (elapsed_s : ℚ) : Except String OutPayload :=
  match parse_cc cc_raw with
  | Except.error e => Except.error e
  | Except.ok (pan, mm, yy, cvv) =>
    let specs := planSpecs quote pan mm yy cvv cc_raw
    let results := (specs.zip outcomes).map
      (fun p => fetch_site loads p.1.site p.1.url p.1.cc p.2.2 p.2.1)
    Except.ok (assemble cc_raw results elapsed_s)

/-! ### Characterising the aggregation fold -/

/-- The any-live signal one result contributes (lines 88-94). -/
def resultLive (r : EndpointResult) : Bool :=
  match structuredFields r.parsed_response with
  | some fs => fieldsLive fs
  | none => false

/-- The any-error signal one result contributes (lines 88, 95-96, 102-104). -/
def resultError (r : EndpointResult) : Bool :=
  match structuredFields r.parsed_response with
  | some fs => fieldsError fs
  | none => unstructuredError r

/-- The price one result contributes (lines 97-101). -/
def resultPrice (r : EndpointResult) : Option ℚ :=
  match structuredFields r.parsed_response with
  | some fs => fieldsPrice fs
  | none => none

/-- The prices collected over a whole result list. -/
def collectPrices (results : List EndpointResult) : List ℚ :=
  results.filterMap resultPrice

lemma aggStep_eq (st : AggState) (r : EndpointResult) :
    aggStep st r =
      { any_live := st.any_live || resultLive r,
        any_error := st.any_error || resultError r,
        prices := st.prices ++ (resultPrice r).toList } := by
  unfold aggStep resultLive resultError resultPrice
  cases structuredFields r.parsed_response <;> simp

lemma foldl_aggStep (rs : List EndpointResult) (st : AggState) :
    rs.foldl aggStep st =
      { any_live := st.any_live || rs.any resultLive,
        any_error := st.any_error || rs.any resultError,
        prices := st.prices ++ rs.filterMap resultPrice } := by
  induction rs generalizing st with
  | nil => simp
  | cons r rs ih =>
    rw [List.foldl_cons, aggStep_eq, ih]
    cases h : resultPrice r <;>
      simp [h, List.filterMap_cons, Bool.or_assoc]

lemma foldl_qAdd (l : List ℚ) (a : ℚ) : l.foldl qAdd a = a + l.sum := by
  induction l generalizing a with
  | nil => simp
  | cons x xs ih =>
    rw [List.foldl_cons, ih, qAdd_eq, List.sum_cons]
    ring

lemma pySum_eq (l : List ℚ) : pySum l = l.sum := by
  unfold pySum
  rw [foldl_qAdd]
  ring

/-- `decide_overall` in closed form: the classification is decided by the two
`any` signals, the price by the collected price list. -/
lemma decide_overall_eq (results : List EndpointResult) :
    decide_overall results =
      { Response := if results.any resultLive then "LIVE"
          else if results.any resultError then "GENERIC_ERROR" else "UNKNOWN",
        Status := if results.any resultLive then "true"
          else if results.any resultError then "false" else "unknown",
        Price := if (collectPrices results).isEmpty then none
          else some (round2 ((collectPrices results).sum / ((collectPrices results).length : ℚ))) } := by
  unfold decide_overall collectPrices
  rw [foldl_aggStep]
  simp only [Bool.false_or, List.nil_append, qDiv_eq, qOfNat_eq, pySum_eq]

lemma any_eq_of_perm {rs1 rs2 : List EndpointResult} (h : rs1.Perm rs2)
    (p : EndpointResult → Bool) : rs1.any p = rs2.any p := by
  cases hb : rs2.any p with
  | true =>
    rw [List.any_eq_true] at hb ⊢
    obtain ⟨x, hx, hpx⟩ := hb
    exact ⟨x, h.mem_iff.mpr hx, hpx⟩
  | false =>
    rw [List.any_eq_false] at hb ⊢
    intro x hx
    exact hb x (h.mem_iff.mp hx)

/-! ### Concrete results used by the witnesses -/

/-- A result whose structured body reports the keyword LIVE and a price. -/
def liveBodyResult : EndpointResult :=
  { site := "https://livelovespa.com", url := "u1", cc := "a|b|c|d",
    http_status := some 200, duration_ms := 120,
    raw_response := some "x",
    parsed_response := some (Json.obj
      [("Response", Json.str "Order LIVE"), ("Status", Json.str "true"),
       ("Price", Json.num 10)]),
    error := none }

/-- A result whose structured body reports the generic-error sentinel. -/
def genericErrorResult : EndpointResult :=
  { site := "https://deltacloudz.com", url := "u2", cc := "a|b|c|d",
    http_status := some 200, duration_ms := 80,
    raw_response := some "y",
    parsed_response := some (Json.obj [("Response", Json.str "GENERIC_ERROR")]),
    error := none }

/-- A result for a call that failed at the transport level. -/
def transportFailResult : EndpointResult :=
  { site := "https://lptmedical.com", url := "u3", cc := "a|b|c|d",
    http_status := none, duration_ms := 15000,
    raw_response := none, parsed_response := none,
    error := some "Cannot connect to host" }

/-- A structured body contributing the price 10 and nothing else. -/
def price10Result : EndpointResult :=
  { site := "s1", url := "u4", cc := "a|b|c|d", http_status := some 200,
    duration_ms := 50, raw_response := some "p",
    parsed_response := some (Json.obj [("Price", Json.num 10)]),
    error := none }

/-- A structured body contributing the price 20 and nothing else. -/
def price20Result : EndpointResult :=
  { site := "s2", url := "u5", cc := "a|b|c|d", http_status := some 200,
    duration_ms := 60, raw_response := some "q",
    parsed_response := some (Json.obj [("Price", Json.num 20)]),
    error := none }

/-- A structured body supplying no price. -/
def noPriceResult : EndpointResult :=
  { site := "s3", url := "u6", cc := "a|b|c|d", http_status := some 200,
    duration_ms := 70, raw_response := some "r",
    parsed_response := some (Json.obj [("Response", Json.str "hmm")]),
    error := none }

/-- A malformed structured body: wrongly-typed fields throughout, and a
price whose `float` coercion fails. -/
def badFieldsResult : EndpointResult :=
  { site := "s4", url := "u7", cc := "a|b|c|d", http_status := some 200,
    duration_ms := 90, raw_response := some "z",
    parsed_response := some (Json.obj
      [("Response", Json.bool false), ("Status", Json.null),
       ("Price", Json.str "abc")]),
    error := none }

/-! ### The claims -/

/-- C1: for every result list, `decide_overall` returns classification
`"LIVE"` with status `"true"` when any result sets the any-live signal;
otherwise `"GENERIC_ERROR"` with status `"false"` when any result sets the
any-error signal; otherwise `"UNKNOWN"` with status `"unknown"` — so
`any_live` takes precedence over `any_error` whatever the mixture and order
of live and error results. -/
theorem c1_any_live_precedence (results : List EndpointResult) :
    (results.any resultLive = true →
      (decide_overall results).Response = "LIVE" ∧
        (decide_overall results).Status = "true") ∧
    (results.any resultLive = false → results.any resultError = true →
      (decide_overall results).Response = "GENERIC_ERROR" ∧
        (decide_overall results).Status = "false") ∧
    (results.any resultLive = false → results.any resultError = false →
      (decide_overall results).Response = "UNKNOWN" ∧
        (decide_overall results).Status = "unknown") := by
  refine ⟨fun h => ?_, fun h1 h2 => ?_, fun h1 h2 => ?_⟩
  · simp [decide_overall_eq, h]
  · simp [decide_overall_eq, h1, h2]
  · simp [decide_overall_eq, h1, h2]

/-- Witness for C1: a single live body mixed with a generic-error body and a
transport failure, the live one in the middle, classifies LIVE/true. -/
theorem c1_witness :
    List.any [genericErrorResult, liveBodyResult, transportFailResult] resultLive = true ∧
    ((decide_overall [genericErrorResult, liveBodyResult, transportFailResult]).Response = "LIVE" ∧
      (decide_overall [genericErrorResult, liveBodyResult, transportFailResult]).Status = "true") :=
  ⟨by decide,
   (c1_any_live_precedence [genericErrorResult, liveBodyResult, transportFailResult]).1 (by decide)⟩

/-- C2: `fetch_site` converts any transport-level exception into a result
with the error field populated (with the stringified exception) and the HTTP
status absent; and across all outcomes the error field is `none` exactly when
an HTTP status is present. -/
theorem c2_fetch_site_error_iff (loads : String → Option Json)
    (site url cc_for_site : String) (dur : ℚ) (o : NetOutcome) :
    (∀ msg, o = NetOutcome.exn msg →
      (fetch_site loads site url cc_for_site dur o).error = some msg ∧
      (fetch_site loads site url cc_for_site dur o).http_status = none) ∧
    ((fetch_site loads site url cc_for_site dur o).error = none ↔
      ∃ status, (fetch_site loads site url cc_for_site dur o).http_status = some status) := by
  cases o <;> simp [fetch_site]

/-- Witness for C2: a timed-out call yields an error result with no status. -/
theorem c2_witness :
    (fetch_site (fun _ => none) "s" "u" "c" 0 (NetOutcome.exn "Connection timeout")).error
        = some "Connection timeout" ∧
    (fetch_site (fun _ => none) "s" "u" "c" 0 (NetOutcome.exn "Connection timeout")).http_status
        = none :=
  (c2_fetch_site_error_iff (fun _ => none) "s" "u" "c" 0
      (NetOutcome.exn "Connection timeout")).1 "Connection timeout" rfl

/-- C3: for a valid four-field record the planner emits one request spec per
configured endpoint, in configuration order; positions 0-4 carry the raw
record, and positions 5 and beyond carry the record with its fourth field
replaced by the sentinel `"000"` (the first three fields unchanged). -/
theorem c3_planner_positions (quote : String → String) (cc_raw pan mm yy cvv : String)
    (hp : parse_cc cc_raw = Except.ok (pan, mm, yy, cvv))
    (h4 : cc_raw = pan ++ "|" ++ mm ++ "|" ++ yy ++ "|" ++ cvv) :
    ∃ specs, gatewayPlan quote cc_raw = Except.ok specs ∧
      specs.map RequestSpec.site = SITES ∧
      specs.map RequestSpec.cc =
        [cc_raw, cc_raw, cc_raw, cc_raw, cc_raw,
         maskedCC pan mm yy, maskedCC pan mm yy, maskedCC pan mm yy,
         maskedCC pan mm yy, maskedCC pan mm yy] := by
  refine ⟨planSpecs quote pan mm yy cvv cc_raw, ?_, rfl, rfl⟩
  unfold gatewayPlan
  rw [hp]

/-- Witness for C3 at the record `"a|b|c|d"` with the identity for the
percent-encoder. -/
theorem c3_witness :
    ∃ specs, gatewayPlan (fun s => s) "a|b|c|d" = Except.ok specs ∧
      specs.map RequestSpec.site = SITES ∧
      specs.map RequestSpec.cc =
        ["a|b|c|d", "a|b|c|d", "a|b|c|d", "a|b|c|d", "a|b|c|d",
         maskedCC "a" "b" "c", maskedCC "a" "b" "c", maskedCC "a" "b" "c",
         maskedCC "a" "b" "c", maskedCC "a" "b" "c"] :=
  c3_planner_positions (fun s => s) "a|b|c|d" "a" "b" "c" "d" rfl rfl

/-- C4 counterexample: the parser does not reject empty fields — on `"|||"`
every field is empty (and trivially empty after trimming), yet `parse_cc`
succeeds and returns four empty fields, so "parsing fails when a field is
empty after trimming" is false of the code. -/
theorem c4_counterexample :
    parse_cc "|||" = Except.ok ("", "", "", "") ∧ ("" : String).isEmpty = true :=
  ⟨rfl, rfl⟩

/-- C4 amended: parsing succeeds if and only if the wire form contains at
least four delimiter-separated parts — fields are not trimmed and may be
empty — and on success the four returned fields are exactly the first four
parts; with fewer than four parts it raises `ValueError`. -/
theorem c4_amended (cc_raw : String) :
    (4 ≤ (pySplitBar cc_raw).length →
      parse_cc cc_raw = Except.ok
        ((pySplitBar cc_raw).getD 0 "", (pySplitBar cc_raw).getD 1 "",
         (pySplitBar cc_raw).getD 2 "", (pySplitBar cc_raw).getD 3 "")) ∧
    ((pySplitBar cc_raw).length < 4 →
      parse_cc cc_raw = Except.error "Invalid cc format. Expecting PAN|MM|YY|CVV") := by
  constructor
  · intro h
    simp only [parse_cc]
    rw [if_neg (by omega)]
  · intro h
    simp only [parse_cc]
    rw [if_pos h]

/-- Witness for C4 amended: a four-part record parses into its parts, a
three-part record is rejected. -/
theorem c4_witness :
    parse_cc "x|11|22|333" = Except.ok ("x", "11", "22", "333") ∧
    parse_cc "x|11|22" = Except.error "Invalid cc format. Expecting PAN|MM|YY|CVV" :=
  ⟨(c4_amended "x|11|22|333").1 (by decide), (c4_amended "x|11|22").2 (by decide)⟩

/-- C5: the overall numeric value is the arithmetic mean of exactly the
price values the structured bodies supplied (contributors without a
coercible value are excluded), rounded to two decimals, and absent when the
collected list is empty; in particular bodies supplying 10 and 20 alongside
one supplying nothing yield 15. -/
theorem c5_price_mean :
    (∀ results : List EndpointResult,
      (decide_overall results).Price =
        if (collectPrices results).isEmpty then none
        else some (round2
          ((collectPrices results).sum / ((collectPrices results).length : ℚ)))) ∧
    (decide_overall [price10Result, price20Result, noPriceResult]).Price = some 15 := by
  constructor
  · intro results
    rw [decide_overall_eq]
  · decide

/-- C6: the classification label and status flag of `decide_overall` are
invariant under every permutation of the result list. -/
theorem c6_order_independent (rs1 rs2 : List EndpointResult) (h : rs1.Perm rs2) :
    (decide_overall rs1).Response = (decide_overall rs2).Response ∧
    (decide_overall rs1).Status = (decide_overall rs2).Status := by
  have hl := any_eq_of_perm h resultLive
  have he := any_eq_of_perm h resultError
  rw [decide_overall_eq, decide_overall_eq]
  simp [hl, he]

/-- Witness for C6: swapping a live and an error result changes neither the
label nor the status. -/
theorem c6_witness :
    (decide_overall [liveBodyResult, genericErrorResult]).Response
        = (decide_overall [genericErrorResult, liveBodyResult]).Response ∧
    (decide_overall [liveBodyResult, genericErrorResult]).Status
        = (decide_overall [genericErrorResult, liveBodyResult]).Status :=
  c6_order_independent _ _ (List.Perm.swap genericErrorResult liveBodyResult [])

/-- C7: aggregation is total on arbitrary (also malformed) structured
bodies — the verdict always carries one of the three labels and one of the
three statuses — and a price whose numeric coercion fails only drops that
contributor's value, leaving the overall price of the remaining results
unchanged. -/
theorem c7_aggregator_robust :
    (∀ results : List EndpointResult,
      (decide_overall results).Response ∈ (["LIVE", "GENERIC_ERROR", "UNKNOWN"] : List String) ∧
      (decide_overall results).Status ∈ (["true", "false", "unknown"] : List String)) ∧
    (∀ (l1 l2 : List EndpointResult) (r : EndpointResult), resultPrice r = none →
      (decide_overall (l1 ++ r :: l2)).Price = (decide_overall (l1 ++ l2)).Price) := by
  constructor
  · intro results
    rw [decide_overall_eq]
    constructor <;> split_ifs <;> simp
  · intro l1 l2 r h
    rw [decide_overall_eq, decide_overall_eq]
    have hcp : collectPrices (l1 ++ r :: l2) = collectPrices (l1 ++ l2) := by
      unfold collectPrices
      simp [List.filterMap_append, List.filterMap_cons, h]
    rw [hcp]

/-- Witness for C7: a body with wrongly-typed fields and an uncoercible
price contributes no value and the fold still yields a verdict. -/
theorem c7_witness :
    resultPrice badFieldsResult = none ∧
    (decide_overall [badFieldsResult]).Price = (decide_overall []).Price :=
  ⟨by decide, c7_aggregator_robust.2 [] [] badFieldsResult (by decide)⟩

/-- C8 counterexample: the code applies no clamping — the value handed to the
semaphore is the configured constant itself, so a configured ceiling of 0
differs from the claimed clamp and the ten-spec batch never reaches its
join. -/
theorem c8_counterexample :
    semaphorePermits 0 ≠ specClamp 0 SITES.length ∧
    batchJoins (semaphorePermits 0) SITES.length = false := by
  constructor
  · decide
  · decide

/-- C8 amended: no clamp is applied (the semaphore receives the configured
constant unchanged); the shipped configuration of 3 permits satisfies
`1 ≤ 3 ≤ 10 = number of specs`, so the actual fan-out batch reaches its
join — but a configured value of 0 would deadlock it. -/
theorem c8_amended :
    semaphorePermits MAX_CONCURRENT = MAX_CONCURRENT ∧
    1 ≤ MAX_CONCURRENT ∧ MAX_CONCURRENT ≤ (SITES.length : Int) ∧
    batchJoins (semaphorePermits MAX_CONCURRENT) SITES.length = true := by
  exact ⟨rfl, by decide, by decide, by decide⟩

/-- C9 counterexample: at elapsed time 65.432157 s the only elapsed-time
field of the assembled payload is `total_time_ms = 65432.16`, strictly
greater than the exact elapsed milliseconds 65432.157 — the value is rounded
up, whereas a floor-truncation at any decimal precision never exceeds the
value, so no floor-truncated representation equals what the payload
presents. -/
theorem c9_counterexample :
    (assemble "cc" [] (Rat.divInt 65432157 1000000)).total_time_ms = Rat.divInt 6543216 100 ∧
    Rat.divInt 65432157 1000 < Rat.divInt 6543216 100 ∧
    ∀ p : ℕ, ((⌊(Rat.divInt 65432157 1000 : ℚ) * 10 ^ p⌋ : ℚ) / 10 ^ p)
      ≠ Rat.divInt 6543216 100 := by
  have hlt : (Rat.divInt 65432157 1000 : ℚ) < Rat.divInt 6543216 100 := by
    rw [Rat.divInt_eq_div, Rat.divInt_eq_div]
    norm_num
  refine ⟨by decide, hlt, ?_⟩
  intro p
  have hle : ((⌊(Rat.divInt 65432157 1000 : ℚ) * 10 ^ p⌋ : ℚ) / 10 ^ p)
      ≤ Rat.divInt 65432157 1000 := by
    rw [div_le_iff₀ (by positivity)]
    exact Int.floor_le _
  exact ne_of_lt (lt_of_le_of_lt hle hlt)

/-- C9 amended: the payload presents the elapsed time only as
`total_time_ms`, the raw duration in milliseconds rounded (half-to-even) to
two decimal places — no minutes:seconds representation exists — and the
presented value is within 1/200 ms of the exact elapsed milliseconds. -/
theorem c9_amended (cc_raw : String) (results : List EndpointResult) (elapsed_s : ℚ) :
    (assemble cc_raw results elapsed_s).total_time_ms = round2 (elapsed_s * 1000) ∧
    |(assemble cc_raw results elapsed_s).total_time_ms - elapsed_s * 1000| ≤ 1 / 200 := by
  have h : (assemble cc_raw results elapsed_s).total_time_ms = round2 (elapsed_s * 1000) := by
    simp [assemble, qMul1000_eq]
  exact ⟨h, h ▸ round2_close (elapsed_s * 1000)⟩

/-- C10: for every accepted request the assembled payload's Gateway label is
the constant `"Authorize.net"`, independent of the input record and of every
endpoint outcome, and the `cc` field echoes the original raw record exactly —
even though the specs queried from position 5 on carried the masked record. -/
theorem c10_payload_constants (quote : String → String) (loads : String → Option Json)
    (cc_raw : String) (outcomes : List (NetOutcome × ℚ)) (elapsed_s : ℚ) (payload : OutPayload)
    (h : gatewayRun quote loads cc_raw outcomes elapsed_s = Except.ok payload) :
    payload.Gateway = "Authorize.net" ∧ payload.cc = cc_raw := by
  unfold gatewayRun at h
  cases hp : parse_cc cc_raw with
  | error e =>
    rw [hp] at h
    exact absurd h (by simp)
  | ok t =>
    obtain ⟨pan, mm, yy, cvv⟩ := t
    rw [hp] at h
    simp only [Except.ok.injEq] at h
    subst h
    simp [assemble]

/-- Witness for C10 at a concrete accepted request. -/
theorem c10_witness :
    (assemble "a|b|c|d" [] 0).Gateway = "Authorize.net" ∧
    (assemble "a|b|c|d" [] 0).cc = "a|b|c|d" :=
  c10_payload_constants (fun s => s) (fun _ => none) "a|b|c|d" [] 0
    (assemble "a|b|c|d" [] 0) rfl

end Killer
